import Mathlib

/-!
Verification of the loan risk calculation and scoring engine
(`LoanCalculator` service: `calculateMetrics` and its private helpers).

The engine is embedded shallowly: every numeric quantity is a real number,
each private helper of the service class becomes a definition of the same
name, and the thrown validation errors become an `Except` value.  The
JavaScript `Math.round` is half-up rounding, modelled by the integer floor
of `x * 100 + 1/2`; `Math.pow` on a positive base is real exponentiation,
modelled by `Real.rpow`.
-/

namespace LoanCalc

/-- The three interest conventions of the input record. -/
inductive InterestType where
  | daily
  | monthly_flat
  | reducing_balance
deriving DecidableEq

/-- Units of the tenor field. -/
inductive TenorUnit where
  | days
  | months
deriving DecidableEq

/-- Input record of the engine. -/
structure LoanInput where
  amount : ℝ
  interestRate : ℝ
  interestType : InterestType
  tenor : ℝ
  tenorUnit : TenorUnit
  adminFee : ℝ
  monthlyIncome : ℝ
  lenderName : String

/-- The four risk tiers. -/
inductive RiskLevel where
  | Rendah
  | Sedang
  | Tinggi
  | SangatBerbahaya
deriving DecidableEq

/-- Output record of the engine. -/
structure LoanMetrics where
  totalRepayment : ℝ
  monthlyInstallment : ℝ
  effectiveApr : ℝ
  dtiRatio : ℝ
  riskScore : ℕ
  riskLevel : RiskLevel

/-- The five validation failures, one per guarded field, in source order. -/
inductive ValidationError where
  | amountNotPositive
  | interestRateNotPositive
  | tenorNotPositive
  | monthlyIncomeNotPositive
  | adminFeeNegative
deriving DecidableEq

/-- Human-readable message carried by each thrown error (source strings). -/
def ValidationError.message : ValidationError → String
  | .amountNotPositive => "Jumlah pinjaman harus lebih dari 0"
  | .interestRateNotPositive => "Suku bunga harus lebih dari 0"
  | .tenorNotPositive => "Tenor harus lebih dari 0"
  | .monthlyIncomeNotPositive => "Gaji bulanan harus lebih dari 0"
  | .adminFeeNegative => "Biaya admin tidak boleh negatif"

/-- The fail-fast input validation: the five checks in source order, the
first failing one reported. -/
noncomputable def validateInput (input : LoanInput) : Except ValidationError Unit :=
  if input.amount ≤ 0 then .error .amountNotPositive
  else if input.interestRate ≤ 0 then .error .interestRateNotPositive
  else if input.tenor ≤ 0 then .error .tenorNotPositive
  else if input.monthlyIncome ≤ 0 then .error .monthlyIncomeNotPositive
  else if input.adminFee < 0 then .error .adminFeeNegative
  else .ok ()

/-- JavaScript rounding of a currency value to 2 decimal places:
`Math.round (x * 100) / 100`, with `Math.round y = floor (y + 1/2)`. -/
noncomputable def round2 (x : ℝ) : ℝ :=
  (⌊x * 100 + 1 / 2⌋ : ℤ) / 100

/-- Interest for the daily convention:
`principal * (dailyRate / 100) * tenorInDays`. -/
noncomputable def calculateDailyInterest (principal dailyRate tenor : ℝ)
    (tenorUnit : TenorUnit) : ℝ :=
  let dailyRateDecimal := dailyRate / 100
  let tenorInDays := match tenorUnit with
    | TenorUnit.days => tenor
    | TenorUnit.months => tenor * 30
  principal * dailyRateDecimal * tenorInDays

/-- Interest for the monthly flat convention:
`principal * (monthlyRate / 100) * tenorInMonths`. -/
noncomputable def calculateMonthlyFlatInterest (principal monthlyRate tenorInMonths : ℝ) : ℝ :=
  let monthlyRateDecimal := monthlyRate / 100
  principal * monthlyRateDecimal * tenorInMonths

/-- Result pair of the reducing balance helper. -/
structure ReducingBalanceResult where
  monthlyInstallment : ℝ
  totalInterest : ℝ

/-- Reducing balance (amortization): the PMT formula
`P * [r * (1+r)^n] / [(1+r)^n - 1]` plus the prorated admin fee, with the
guarded zero-rate branch. -/
noncomputable def calculateReducingBalanceInterest
    (principal monthlyRate tenorInMonths adminFee : ℝ) : ReducingBalanceResult :=
  let monthlyRateDecimal := monthlyRate / 100
  if monthlyRateDecimal = 0 then
    ⟨(principal + adminFee) / tenorInMonths, 0⟩
  else
    let numerator := monthlyRateDecimal * Real.rpow (1 + monthlyRateDecimal) tenorInMonths
    let denominator := Real.rpow (1 + monthlyRateDecimal) tenorInMonths - 1
    let monthlyInstallmentPrincipal := principal * numerator / denominator
    ⟨monthlyInstallmentPrincipal + adminFee / tenorInMonths,
      monthlyInstallmentPrincipal * tenorInMonths - principal⟩

/-- The tenor expressed in months: the tenor itself for unit months,
otherwise `tenor / 30`. -/
noncomputable def tenorInMonthsOf (input : LoanInput) : ℝ :=
  match input.tenorUnit with
  | TenorUnit.months => input.tenor
  | TenorUnit.days => input.tenor / 30

/-- The per-convention branch of `calculateMetrics`: the triple
(totalInterest, effectiveApr, monthlyInstallment) assigned by the
`interestType` conditional chain. -/
noncomputable def interestAprInstallment (input : LoanInput) : ℝ × ℝ × ℝ :=
  let principal := input.amount
  let tIM := tenorInMonthsOf input
  match input.interestType with
  | .daily =>
      let totalInterest :=
        calculateDailyInterest principal input.interestRate input.tenor input.tenorUnit
      (totalInterest, input.interestRate / 100 * 365 * 100,
        (principal + totalInterest + input.adminFee) / (if tIM = 0 then 1 else tIM))
  | .monthly_flat =>
      let totalInterest := calculateMonthlyFlatInterest principal input.interestRate tIM
      (totalInterest, input.interestRate / 100 * 12 * 100,
        (principal + totalInterest + input.adminFee) / tIM)
  | .reducing_balance =>
      let result :=
        calculateReducingBalanceInterest principal input.interestRate tIM input.adminFee
      (result.totalInterest, input.interestRate / 100 * 12 * 100,
        result.monthlyInstallment)

/-- The `totalInterest` local of `calculateMetrics`. -/
noncomputable def totalInterestOf (input : LoanInput) : ℝ :=
  (interestAprInstallment input).1

/-- The unrounded `effectiveApr` local of `calculateMetrics`. -/
noncomputable def effectiveAprOf (input : LoanInput) : ℝ :=
  (interestAprInstallment input).2.1

/-- The unrounded `monthlyInstallment` local of `calculateMetrics`. -/
noncomputable def monthlyInstallmentOf (input : LoanInput) : ℝ :=
  (interestAprInstallment input).2.2

/-- The unrounded debt-to-income ratio:
`monthlyInstallment / monthlyIncome * 100`. -/
noncomputable def dtiRatioOf (input : LoanInput) : ℝ :=
  monthlyInstallmentOf input / input.monthlyIncome * 100

/-- Affordability factor of the risk score (source lines: the dtiRatio
conditional chain). -/
noncomputable def dtiScorePoints (dtiRatio : ℝ) : ℕ :=
  if dtiRatio > 40 then 30
  else if dtiRatio > 30 then 15
  else 0

/-- Rate burden factor of the risk score (the effectiveApr conditional
chain). -/
noncomputable def aprScorePoints (effectiveApr : ℝ) : ℕ :=
  if effectiveApr > 36 then 30
  else if effectiveApr > 20 then 10
  else 0

/-- The additive risk score: 50 when unregistered, plus the affordability
factor, plus the rate burden factor, read off the unrounded ratios. -/
noncomputable def riskScoreOf (input : LoanInput) (isOjkRegistered : Bool) : ℕ :=
  (if !isOjkRegistered then 50 else 0)
    + dtiScorePoints (dtiRatioOf input)
    + aprScorePoints (effectiveAprOf input)

/-- The risk tier of a score: the high-to-low threshold chain. -/
def riskLevelOf (riskScore : ℕ) : RiskLevel :=
  if riskScore ≥ 75 then .SangatBerbahaya
  else if riskScore ≥ 50 then .Tinggi
  else if riskScore ≥ 25 then .Sedang
  else .Rendah

/-- The output record assembled after validation passed: the four currency
and ratio fields rounded to 2 decimals, the score and tier unrounded. -/
noncomputable def assembleMetrics (input : LoanInput) (isOjkRegistered : Bool) : LoanMetrics :=
  ⟨round2 (input.amount + totalInterestOf input + input.adminFee),
    round2 (monthlyInstallmentOf input),
    round2 (effectiveAprOf input),
    round2 (dtiRatioOf input),
    riskScoreOf input isOjkRegistered,
    riskLevelOf (riskScoreOf input isOjkRegistered)⟩

/-- The sole operation of the engine: validate, then compute the metrics; a
validation failure propagates and no metrics are produced. -/
noncomputable def calculateMetrics (input : LoanInput) (isOjkRegistered : Bool) :
    Except ValidationError LoanMetrics :=
  (validateInput input).map fun _ => assembleMetrics input isOjkRegistered

/-- Validation succeeds exactly when the five field constraints hold. -/
theorem validateInput_ok_iff (input : LoanInput) :
    validateInput input = Except.ok () ↔
      0 < input.amount ∧ 0 < input.interestRate ∧ 0 < input.tenor ∧
        0 < input.monthlyIncome ∧ 0 ≤ input.adminFee := by
  unfold validateInput
  split_ifs with h1 h2 h3 h4 h5 <;> simp_all [not_le, not_lt]

/-- The engine returns metrics exactly when validation passed, and then
returns the assembled record. -/
theorem calculateMetrics_eq_ok_iff (input : LoanInput) (reg : Bool) (m : LoanMetrics) :
    calculateMetrics input reg = Except.ok m ↔
      validateInput input = Except.ok () ∧ m = assembleMetrics input reg := by
  unfold calculateMetrics
  cases h : validateInput input with
  | error e => simp [Except.map]
  | ok u => cases u; simp [Except.map, eq_comm]

/-- The engine fails with exactly the error the validator reports. -/
theorem calculateMetrics_eq_error_iff (input : LoanInput) (reg : Bool) (e : ValidationError) :
    calculateMetrics input reg = Except.error e ↔ validateInput input = Except.error e := by
  unfold calculateMetrics
  cases h : validateInput input <;> simp [Except.map]

/-- C3: calculateMetrics fails with a ValidationError if and only if one of
the constraints amount > 0, interestRate > 0, tenor > 0, monthlyIncome > 0,
adminFee >= 0 is violated; the reported error is the first violated
constraint in that priority order, and metrics are returned exactly on
fully valid input (so nothing is computed on failure). -/
theorem claim_C3 (input : LoanInput) (reg : Bool) :
    (calculateMetrics input reg = Except.error ValidationError.amountNotPositive ↔
      input.amount ≤ 0) ∧
    (calculateMetrics input reg = Except.error ValidationError.interestRateNotPositive ↔
      0 < input.amount ∧ input.interestRate ≤ 0) ∧
    (calculateMetrics input reg = Except.error ValidationError.tenorNotPositive ↔
      0 < input.amount ∧ 0 < input.interestRate ∧ input.tenor ≤ 0) ∧
    (calculateMetrics input reg = Except.error ValidationError.monthlyIncomeNotPositive ↔
      0 < input.amount ∧ 0 < input.interestRate ∧ 0 < input.tenor ∧
        input.monthlyIncome ≤ 0) ∧
    (calculateMetrics input reg = Except.error ValidationError.adminFeeNegative ↔
      0 < input.amount ∧ 0 < input.interestRate ∧ 0 < input.tenor ∧
        0 < input.monthlyIncome ∧ input.adminFee < 0) ∧
    ((∃ m, calculateMetrics input reg = Except.ok m) ↔
      0 < input.amount ∧ 0 < input.interestRate ∧ 0 < input.tenor ∧
        0 < input.monthlyIncome ∧ 0 ≤ input.adminFee) := by
  have hex : (∃ m, calculateMetrics input reg = Except.ok m) ↔
      validateInput input = Except.ok () := by
    constructor
    · rintro ⟨m, hm⟩
      exact ((calculateMetrics_eq_ok_iff input reg m).mp hm).1
    · intro h
      exact ⟨assembleMetrics input reg,
        (calculateMetrics_eq_ok_iff input reg _).mpr ⟨h, rfl⟩⟩
  rw [calculateMetrics_eq_error_iff, calculateMetrics_eq_error_iff,
    calculateMetrics_eq_error_iff, calculateMetrics_eq_error_iff,
    calculateMetrics_eq_error_iff, hex, validateInput_ok_iff]
  unfold validateInput
  split_ifs with h1 h2 h3 h4 h5 <;> simp_all [not_le, not_lt]

/-- Evaluation rule for the 2-decimal rounding at a known value. -/
theorem round2_eq (x : ℝ) (n : ℤ) (h1 : (n : ℝ) ≤ x * 100 + 1 / 2)
    (h2 : x * 100 + 1 / 2 < (n : ℝ) + 1) :
    round2 x = (n : ℝ) / 100 := by
  unfold round2
  have hfl : ⌊x * 100 + 1 / 2⌋ = n := Int.floor_eq_iff.mpr ⟨h1, h2⟩
  rw [hfl]

/-- The example scenario input of the specification: a 1 percent daily rate
loan of 1,000,000 over 30 days with a 50,000 admin fee against an income of
5,000,000. -/
noncomputable def c5input : LoanInput :=
  ⟨1000000, 1, InterestType.daily, 30, TenorUnit.days, 50000, 5000000, "PinjamCepat"⟩

/-- C5: on the worked scenario of the specification (unregistered lender), the
engine returns totalRepayment 1,350,000, monthlyInstallment 1,350,000,
effectiveApr 365, dtiRatio 27, riskScore 80 and riskLevel Sangat
Berbahaya. -/
theorem claim_C5 :
    calculateMetrics c5input false =
      Except.ok ⟨1350000, 1350000, 365, 27, 80, RiskLevel.SangatBerbahaya⟩ := by
  have hti : totalInterestOf c5input = 300000 := by
    norm_num [totalInterestOf, interestAprInstallment, calculateDailyInterest,
      tenorInMonthsOf, c5input]
  have hapr : effectiveAprOf c5input = 365 := by
    norm_num [effectiveAprOf, interestAprInstallment, calculateDailyInterest,
      tenorInMonthsOf, c5input]
  have hmi : monthlyInstallmentOf c5input = 1350000 := by
    norm_num [monthlyInstallmentOf, interestAprInstallment, calculateDailyInterest,
      tenorInMonthsOf, c5input]
  have hdti : dtiRatioOf c5input = 27 := by
    rw [dtiRatioOf, hmi]
    norm_num [c5input]
  have hscore : riskScoreOf c5input false = 80 := by
    rw [riskScoreOf, hdti, hapr]
    norm_num [dtiScorePoints, aprScorePoints]
  have hv : validateInput c5input = Except.ok () := by
    rw [validateInput_ok_iff]
    norm_num [c5input]
  rw [calculateMetrics, hv]
  simp only [Except.map]
  rw [assembleMetrics, hti, hmi, hapr, hdti, hscore]
  have hc1 : c5input.amount = 1000000 := rfl
  have hc2 : c5input.adminFee = 50000 := rfl
  rw [hc1, hc2]
  norm_num [riskLevelOf,
    round2_eq 1350000 135000000 (by norm_num) (by norm_num),
    round2_eq 365 36500 (by norm_num) (by norm_num),
    round2_eq 27 2700 (by norm_num) (by norm_num)]

/-- C7: the affordability factor is strict at both thresholds: a debt-to-
income ratio of exactly 30.00 contributes 0 points and 30.01 contributes
15; exactly 40.00 contributes 15 and 40.01 contributes 30. -/
theorem claim_C7 :
    dtiScorePoints 30 = 0 ∧ dtiScorePoints (3001 / 100) = 15 ∧
      dtiScorePoints 40 = 15 ∧ dtiScorePoints (4001 / 100) = 30 := by
  norm_num [dtiScorePoints]

/-- The specification scenario with the monthly income lowered to
3,000,000, putting the debt-to-income ratio at 45. -/
noncomputable def c1input : LoanInput :=
  ⟨1000000, 1, InterestType.daily, 30, TenorUnit.days, 50000, 3000000, "PinjamCepat"⟩

/-- C1 counterexample: an unregistered-lender input whose returned
riskScore is 110 = 50 + 30 + 30, above 100, so the score is not confined
to the interval 0 to 100. -/
theorem claim_C1_cex :
    ∃ m, calculateMetrics c1input false = Except.ok m ∧ ¬ m.riskScore ≤ 100 := by
  have hmi : monthlyInstallmentOf c1input = 1350000 := by
    norm_num [monthlyInstallmentOf, interestAprInstallment, calculateDailyInterest,
      tenorInMonthsOf, c1input]
  have hdti : dtiRatioOf c1input = 45 := by
    rw [dtiRatioOf, hmi]
    norm_num [c1input]
  have hapr : effectiveAprOf c1input = 365 := by
    norm_num [effectiveAprOf, interestAprInstallment, calculateDailyInterest,
      tenorInMonthsOf, c1input]
  have hscore : riskScoreOf c1input false = 110 := by
    rw [riskScoreOf, hdti, hapr]
    norm_num [dtiScorePoints, aprScorePoints]
  refine ⟨assembleMetrics c1input false, ?_, ?_⟩
  · rw [calculateMetrics, (validateInput_ok_iff c1input).mpr (by norm_num [c1input])]
    rfl
  · simp only [assembleMetrics, hscore]
    norm_num

/-- C1 amended: the additive risk score of the returned metrics is an
integer bounded by 110, not 100: the three factors reach 50 + 30 + 30 when
the lender is unregistered, the debt-to-income ratio exceeds 40 and the
effective APR exceeds 36. -/
theorem claim_C1_amended (input : LoanInput) (reg : Bool) :
    riskScoreOf input reg ≤ 110 ∧
      ∀ m, calculateMetrics input reg = Except.ok m → m.riskScore ≤ 110 := by
  have hb : riskScoreOf input reg ≤ 110 := by
    unfold riskScoreOf dtiScorePoints aprScorePoints
    split_ifs <;> omega
  refine ⟨hb, ?_⟩
  intro m hm
  obtain ⟨-, rfl⟩ := (calculateMetrics_eq_ok_iff input reg m).mp hm
  simpa only [assembleMetrics] using hb

/-- The top tier is assigned exactly to scores of 75 and above. -/
theorem riskLevelOf_eq_top_iff (s : ℕ) :
    riskLevelOf s = RiskLevel.SangatBerbahaya ↔ 75 ≤ s := by
  unfold riskLevelOf
  split_ifs with h1 h2 h3 <;> simp_all

/-- An unregistered monthly-flat loan sitting exactly on the moderate
bands: debt-to-income ratio 40 (15 points) and effective APR 24
(10 points). -/
noncomputable def c6input : LoanInput :=
  ⟨1000000, 2, InterestType.monthly_flat, 10, TenorUnit.months, 0, 300000, "KreditKilat"⟩

/-- The metrics the engine returns on `c6input` with an unregistered
lender. -/
noncomputable def c6metrics : LoanMetrics :=
  ⟨1200000, 120000, 24, 40, 75, RiskLevel.SangatBerbahaya⟩

/-- The unrounded debt-to-income ratio of `c6input` is exactly 40. -/
theorem c6dti : dtiRatioOf c6input = 40 := by
  have hmi : monthlyInstallmentOf c6input = 120000 := by
    norm_num [monthlyInstallmentOf, interestAprInstallment, calculateMonthlyFlatInterest,
      tenorInMonthsOf, c6input]
  rw [dtiRatioOf, hmi]
  norm_num [c6input]

/-- The unrounded effective APR of `c6input` is exactly 24. -/
theorem c6apr : effectiveAprOf c6input = 24 := by
  norm_num [effectiveAprOf, interestAprInstallment, calculateMonthlyFlatInterest,
    tenorInMonthsOf, c6input]

/-- Full evaluation of the engine on `c6input` with an unregistered
lender. -/
theorem c6eval : calculateMetrics c6input false = Except.ok c6metrics := by
  have hti : totalInterestOf c6input = 200000 := by
    norm_num [totalInterestOf, interestAprInstallment, calculateMonthlyFlatInterest,
      tenorInMonthsOf, c6input]
  have hmi : monthlyInstallmentOf c6input = 120000 := by
    norm_num [monthlyInstallmentOf, interestAprInstallment, calculateMonthlyFlatInterest,
      tenorInMonthsOf, c6input]
  have hscore : riskScoreOf c6input false = 75 := by
    rw [riskScoreOf, c6dti, c6apr]
    norm_num [dtiScorePoints, aprScorePoints]
  have hv : validateInput c6input = Except.ok () := by
    rw [validateInput_ok_iff]
    norm_num [c6input]
  rw [calculateMetrics, hv]
  simp only [Except.map]
  rw [assembleMetrics, hti, hmi, c6apr, c6dti, hscore]
  have hc1 : c6input.amount = 1000000 := rfl
  have hc2 : c6input.adminFee = 0 := rfl
  rw [hc1, hc2]
  norm_num [riskLevelOf, c6metrics,
    round2_eq 1200000 120000000 (by norm_num) (by norm_num),
    round2_eq 120000 12000000 (by norm_num) (by norm_num),
    round2_eq 24 2400 (by norm_num) (by norm_num),
    round2_eq 40 4000 (by norm_num) (by norm_num)]

/-- C6 counterexample: on `c6input` (unregistered) the engine returns the
top tier Sangat Berbahaya although neither financial factor is severe (the
ratio is exactly 40, not above it; the APR is 24, not above 36) and
neither factor is at its maximal 30 points: 50 + 15 + 10 = 75 already
reaches the top tier. -/
theorem claim_C6_cex :
    ∃ m, calculateMetrics c6input false = Except.ok m ∧
      m.riskLevel = RiskLevel.SangatBerbahaya ∧
      dtiRatioOf c6input = 40 ∧ effectiveAprOf c6input = 24 ∧
      dtiScorePoints (dtiRatioOf c6input) = 15 ∧
      aprScorePoints (effectiveAprOf c6input) = 10 := by
  refine ⟨c6metrics, c6eval, rfl, c6dti, c6apr, ?_, ?_⟩
  · rw [c6dti]
    norm_num [dtiScorePoints]
  · rw [c6apr]
    norm_num [aprScorePoints]

/-- C6 amended: the returned tier is Sangat Berbahaya exactly when the
lender is unregistered and the two financial factors together contribute
at least 25 points: the ratio is above 40, or the APR is above 36, or both
are moderate (ratio above 30 and APR above 20); in particular a registered
lender never yields Sangat Berbahaya. -/
theorem claim_C6_amended (input : LoanInput) (reg : Bool) (m : LoanMetrics)
    (hm : calculateMetrics input reg = Except.ok m) :
    (m.riskLevel = RiskLevel.SangatBerbahaya ↔
      reg = false ∧ (40 < dtiRatioOf input ∨ 36 < effectiveAprOf input ∨
        (30 < dtiRatioOf input ∧ 20 < effectiveAprOf input))) := by
  obtain ⟨-, rfl⟩ := (calculateMetrics_eq_ok_iff input reg m).mp hm
  simp only [assembleMetrics]
  rw [riskLevelOf_eq_top_iff]
  unfold riskScoreOf dtiScorePoints aprScorePoints
  cases reg <;> split_ifs <;> simp_all [gt_iff_lt]

/-- C6 witness: the amended characterization instantiated on the concrete
input `c6input` with an unregistered lender. -/
theorem claim_C6_witness :
    c6metrics.riskLevel = RiskLevel.SangatBerbahaya ↔
      false = false ∧ (40 < dtiRatioOf c6input ∨ 36 < effectiveAprOf c6input ∨
        (30 < dtiRatioOf c6input ∧ 20 < effectiveAprOf c6input)) :=
  claim_C6_amended c6input false c6metrics c6eval

/-- C4: for the daily convention the engine computes totalInterest as
amount times the daily rate times the tenor in days (tenor itself for unit
days, tenor times 30 otherwise) and annualizes the APR by 365; for the
monthly flat convention it computes totalInterest over the tenor in months
(tenor itself for unit months, tenor divided by 30 otherwise) and
annualizes by 12; the returned fields are these values rounded to two
decimals. -/
theorem claim_C4 (input : LoanInput) :
    (input.interestType = InterestType.daily →
      totalInterestOf input = input.amount * (input.interestRate / 100) *
          (if input.tenorUnit = TenorUnit.days then input.tenor else input.tenor * 30) ∧
        effectiveAprOf input = input.interestRate / 100 * 365 * 100) ∧
    (input.interestType = InterestType.monthly_flat →
      totalInterestOf input = input.amount * (input.interestRate / 100) *
          (if input.tenorUnit = TenorUnit.months then input.tenor else input.tenor / 30) ∧
        effectiveAprOf input = input.interestRate / 100 * 12 * 100) ∧
    (∀ reg m, calculateMetrics input reg = Except.ok m →
      m.effectiveApr = round2 (effectiveAprOf input) ∧
        m.totalRepayment = round2 (input.amount + totalInterestOf input + input.adminFee)) := by
  refine ⟨?_, ?_, ?_⟩
  · intro h
    constructor
    · simp only [totalInterestOf, interestAprInstallment, calculateDailyInterest, h]
      cases htu : input.tenorUnit <;> simp [htu]
    · simp only [effectiveAprOf, interestAprInstallment, h]
  · intro h
    constructor
    · simp only [totalInterestOf, interestAprInstallment, calculateMonthlyFlatInterest,
        tenorInMonthsOf, h]
      cases htu : input.tenorUnit <;> simp [htu]
    · simp only [effectiveAprOf, interestAprInstallment, h]
  · intro reg m hm
    obtain ⟨-, rfl⟩ := (calculateMetrics_eq_ok_iff input reg m).mp hm
    exact ⟨rfl, rfl⟩

/-- The annualized rate is a function of the interest rate and convention
alone: 365 times the periodic rate for daily, 12 times for the other two
conventions. -/
theorem effectiveAprOf_formula (i : LoanInput) :
    effectiveAprOf i =
      (match i.interestType with
        | InterestType.daily => i.interestRate / 100 * 365 * 100
        | InterestType.monthly_flat => i.interestRate / 100 * 12 * 100
        | InterestType.reducing_balance => i.interestRate / 100 * 12 * 100) := by
  unfold effectiveAprOf interestAprInstallment
  cases h : i.interestType <;> simp [h]

/-- C9: two validated inputs agreeing on interestRate and interestType get
the same effective APR, whatever their amount, tenor, tenor unit, admin
fee, income, lender name or registration flag: both the unrounded rate and
the returned rounded field coincide. -/
theorem claim_C9 (i1 i2 : LoanInput) (b1 b2 : Bool) (m1 m2 : LoanMetrics)
    (hrate : i1.interestRate = i2.interestRate)
    (htype : i1.interestType = i2.interestType)
    (h1 : calculateMetrics i1 b1 = Except.ok m1)
    (h2 : calculateMetrics i2 b2 = Except.ok m2) :
    effectiveAprOf i1 = effectiveAprOf i2 ∧ m1.effectiveApr = m2.effectiveApr := by
  have key : effectiveAprOf i1 = effectiveAprOf i2 := by
    rw [effectiveAprOf_formula, effectiveAprOf_formula, hrate, htype]
  obtain ⟨-, rfl⟩ := (calculateMetrics_eq_ok_iff i1 b1 m1).mp h1
  obtain ⟨-, rfl⟩ := (calculateMetrics_eq_ok_iff i2 b2 m2).mp h2
  refine ⟨key, ?_⟩
  simp only [assembleMetrics]
  rw [key]

/-- A small daily-rate loan used to witness the APR independence claim. -/
noncomputable def c9ainput : LoanInput :=
  ⟨100, 1, InterestType.daily, 30, TenorUnit.days, 0, 100, "LenderA"⟩

/-- A loan agreeing with `c9ainput` only on the rate and convention. -/
noncomputable def c9binput : LoanInput :=
  ⟨200, 1, InterestType.daily, 30, TenorUnit.days, 0, 400, "LenderB"⟩

/-- Metrics of `c9ainput` with a registered lender. -/
noncomputable def c9ametrics : LoanMetrics :=
  ⟨130, 130, 365, 130, 60, RiskLevel.Tinggi⟩

/-- Metrics of `c9binput` with an unregistered lender. -/
noncomputable def c9bmetrics : LoanMetrics :=
  ⟨260, 260, 365, 65, 110, RiskLevel.SangatBerbahaya⟩

/-- Full evaluation of the engine on `c9ainput`. -/
theorem c9aeval : calculateMetrics c9ainput true = Except.ok c9ametrics := by
  have hti : totalInterestOf c9ainput = 30 := by
    norm_num [totalInterestOf, interestAprInstallment, calculateDailyInterest,
      tenorInMonthsOf, c9ainput]
  have hapr : effectiveAprOf c9ainput = 365 := by
    norm_num [effectiveAprOf, interestAprInstallment, calculateDailyInterest,
      tenorInMonthsOf, c9ainput]
  have hmi : monthlyInstallmentOf c9ainput = 130 := by
    norm_num [monthlyInstallmentOf, interestAprInstallment, calculateDailyInterest,
      tenorInMonthsOf, c9ainput]
  have hdti : dtiRatioOf c9ainput = 130 := by
    rw [dtiRatioOf, hmi]
    norm_num [c9ainput]
  have hscore : riskScoreOf c9ainput true = 60 := by
    rw [riskScoreOf, hdti, hapr]
    norm_num [dtiScorePoints, aprScorePoints]
  have hv : validateInput c9ainput = Except.ok () := by
    rw [validateInput_ok_iff]
    norm_num [c9ainput]
  rw [calculateMetrics, hv]
  simp only [Except.map]
  rw [assembleMetrics, hti, hmi, hapr, hdti, hscore]
  have hc1 : c9ainput.amount = 100 := rfl
  have hc2 : c9ainput.adminFee = 0 := rfl
  rw [hc1, hc2]
  norm_num [riskLevelOf, c9ametrics,
    round2_eq 130 13000 (by norm_num) (by norm_num),
    round2_eq 365 36500 (by norm_num) (by norm_num)]

/-- Full evaluation of the engine on `c9binput`. -/
theorem c9beval : calculateMetrics c9binput false = Except.ok c9bmetrics := by
  have hti : totalInterestOf c9binput = 60 := by
    norm_num [totalInterestOf, interestAprInstallment, calculateDailyInterest,
      tenorInMonthsOf, c9binput]
  have hapr : effectiveAprOf c9binput = 365 := by
    norm_num [effectiveAprOf, interestAprInstallment, calculateDailyInterest,
      tenorInMonthsOf, c9binput]
  have hmi : monthlyInstallmentOf c9binput = 260 := by
    norm_num [monthlyInstallmentOf, interestAprInstallment, calculateDailyInterest,
      tenorInMonthsOf, c9binput]
  have hdti : dtiRatioOf c9binput = 65 := by
    rw [dtiRatioOf, hmi]
    norm_num [c9binput]
  have hscore : riskScoreOf c9binput false = 110 := by
    rw [riskScoreOf, hdti, hapr]
    norm_num [dtiScorePoints, aprScorePoints]
  have hv : validateInput c9binput = Except.ok () := by
    rw [validateInput_ok_iff]
    norm_num [c9binput]
  rw [calculateMetrics, hv]
  simp only [Except.map]
  rw [assembleMetrics, hti, hmi, hapr, hdti, hscore]
  have hc1 : c9binput.amount = 200 := rfl
  have hc2 : c9binput.adminFee = 0 := rfl
  rw [hc1, hc2]
  norm_num [riskLevelOf, c9bmetrics,
    round2_eq 260 26000 (by norm_num) (by norm_num),
    round2_eq 365 36500 (by norm_num) (by norm_num),
    round2_eq 65 6500 (by norm_num) (by norm_num)]

/-- C9 witness: the two concrete loans above share rate 1 and the daily
convention but nothing else, and the engine reports the same effective APR
for both. -/
theorem claim_C9_witness :
    effectiveAprOf c9ainput = effectiveAprOf c9binput ∧
      c9ametrics.effectiveApr = c9bmetrics.effectiveApr :=
  claim_C9 c9ainput c9binput true false c9ametrics c9bmetrics rfl rfl c9aeval c9beval

/-- C8: on validated input every divisor of the engine is positive: the
tenor in months, the monthly income, and the amortization denominator
(1 + rate/100) to the power tenorInMonths, minus 1. -/
theorem claim_C8 (input : LoanInput) (h : validateInput input = Except.ok ()) :
    0 < tenorInMonthsOf input ∧ 0 < input.monthlyIncome ∧
      0 < Real.rpow (1 + input.interestRate / 100) (tenorInMonthsOf input) - 1 := by
  rw [validateInput_ok_iff] at h
  obtain ⟨ha, hr, htn, hi, hf⟩ := h
  have htim : 0 < tenorInMonthsOf input := by
    unfold tenorInMonthsOf
    cases htu : input.tenorUnit <;> simp only
    · exact div_pos htn (by norm_num)
    · exact htn
  have hbase : (1 : ℝ) < 1 + input.interestRate / 100 := by
    have hq : 0 < input.interestRate / 100 := div_pos hr (by norm_num)
    linarith
  have hpow : 1 < Real.rpow (1 + input.interestRate / 100) (tenorInMonthsOf input) :=
    Real.one_lt_rpow hbase htim
  exact ⟨htim, hi, by linarith⟩

/-- The reducing-balance scenario input of the specification: 10,000,000 at 2
percent monthly over 12 months, no admin fee, income 8,000,000. -/
noncomputable def c8input : LoanInput :=
  ⟨10000000, 2, InterestType.reducing_balance, 12, TenorUnit.months, 0, 8000000, "BankAman"⟩

/-- C8 witness: the divisor-positivity facts instantiated on the concrete
validated reducing-balance input `c8input`. -/
theorem claim_C8_witness :
    0 < tenorInMonthsOf c8input ∧ 0 < c8input.monthlyIncome ∧
      0 < Real.rpow (1 + c8input.interestRate / 100) (tenorInMonthsOf c8input) - 1 :=
  claim_C8 c8input (by rw [validateInput_ok_iff]; norm_num [c8input])

/-- A reducing-balance request with interestRate exactly 0 and every other
field well-formed. -/
noncomputable def c2input : LoanInput :=
  ⟨500000, 0, InterestType.reducing_balance, 6, TenorUnit.months, 30000, 2000000, "KoperasiX"⟩

/-- C2 counterexample: on a reducing-balance input with interestRate 0 and
all other constraints satisfied, calculateMetrics does not return metrics
at all: validation rejects the zero rate, so no totalRepayment or
monthlyInstallment is produced. -/
theorem claim_C2_cex :
    calculateMetrics c2input true = Except.error ValidationError.interestRateNotPositive := by
  rw [calculateMetrics_eq_error_iff]
  unfold validateInput
  norm_num [c2input]

/-- C2 amended: the zero-rate branch lives only in the helper
calculateReducingBalanceInterest, which indeed yields totalInterest 0 and
monthlyInstallment (amount + adminFee) / tenorInMonths at rate 0; but
calculateMetrics never reaches it, rejecting interestRate 0 with the
validation error for the rate field. -/
theorem claim_C2_amended (input : LoanInput) (reg : Bool) (tIM : ℝ)
    (hA : 0 < input.amount) (hR : input.interestRate = 0) :
    calculateMetrics input reg = Except.error ValidationError.interestRateNotPositive ∧
      (calculateReducingBalanceInterest input.amount input.interestRate tIM
          input.adminFee).totalInterest = 0 ∧
      (calculateReducingBalanceInterest input.amount input.interestRate tIM
          input.adminFee).monthlyInstallment = (input.amount + input.adminFee) / tIM := by
  refine ⟨?_, ?_, ?_⟩
  · rw [calculateMetrics_eq_error_iff]
    unfold validateInput
    rw [if_neg (by linarith), if_pos (by rw [hR])]
  · unfold calculateReducingBalanceInterest
    rw [hR]
    norm_num
  · unfold calculateReducingBalanceInterest
    rw [hR]
    norm_num

/-- C2 witness: the amended statement instantiated on the concrete
zero-rate input `c2input` with tenorInMonths 6. -/
theorem claim_C2_witness :
    calculateMetrics c2input true = Except.error ValidationError.interestRateNotPositive ∧
      (calculateReducingBalanceInterest c2input.amount c2input.interestRate 6
          c2input.adminFee).totalInterest = 0 ∧
      (calculateReducingBalanceInterest c2input.amount c2input.interestRate 6
          c2input.adminFee).monthlyInstallment = (c2input.amount + c2input.adminFee) / 6 :=
  claim_C2_amended c2input true 6 (by norm_num [c2input]) (by norm_num [c2input])

/-- A monthly-flat registered loan whose exact debt-to-income ratio is
2,000,000 / 66,663, strictly between 30 and 30.005. -/
noncomputable def c10input : LoanInput :=
  ⟨100000, 10, InterestType.monthly_flat, 10, TenorUnit.months, 0, 66663, "DanaPlus"⟩

/-- C10: the risk score reads the unrounded ratios: on `c10input` the
exact debt-to-income ratio lies strictly between 30 and 30.005, the
returned dtiRatio field is rounded down to exactly 30, yet the returned
riskScore 45 contains the 15-point affordability penalty that the rounded
value 30 would not incur (dtiScorePoints 30 = 0), so the returned score is
not reproducible from the returned rounded ratios. -/
theorem claim_C10 :
    30 < dtiRatioOf c10input ∧ dtiRatioOf c10input < 30 + 1 / 200 ∧
      calculateMetrics c10input true =
        Except.ok ⟨200000, 20000, 120, 30, 45, RiskLevel.Sedang⟩ ∧
      dtiScorePoints (dtiRatioOf c10input) = 15 ∧ dtiScorePoints 30 = 0 := by
  have hti : totalInterestOf c10input = 100000 := by
    norm_num [totalInterestOf, interestAprInstallment, calculateMonthlyFlatInterest,
      tenorInMonthsOf, c10input]
  have hapr : effectiveAprOf c10input = 120 := by
    norm_num [effectiveAprOf, interestAprInstallment, calculateMonthlyFlatInterest,
      tenorInMonthsOf, c10input]
  have hmi : monthlyInstallmentOf c10input = 20000 := by
    norm_num [monthlyInstallmentOf, interestAprInstallment, calculateMonthlyFlatInterest,
      tenorInMonthsOf, c10input]
  have hdti : dtiRatioOf c10input = 2000000 / 66663 := by
    rw [dtiRatioOf, hmi]
    norm_num [c10input]
  have hscore : riskScoreOf c10input true = 45 := by
    rw [riskScoreOf, hdti, hapr]
    norm_num [dtiScorePoints, aprScorePoints]
  have hv : validateInput c10input = Except.ok () := by
    rw [validateInput_ok_iff]
    norm_num [c10input]
  refine ⟨by rw [hdti]; norm_num, by rw [hdti]; norm_num, ?_, ?_, ?_⟩
  · rw [calculateMetrics, hv]
    simp only [Except.map]
    rw [assembleMetrics, hti, hmi, hapr, hdti, hscore]
    have hc1 : c10input.amount = 100000 := rfl
    have hc2 : c10input.adminFee = 0 := rfl
    rw [hc1, hc2]
    norm_num [riskLevelOf,
      round2_eq 200000 20000000 (by norm_num) (by norm_num),
      round2_eq 20000 2000000 (by norm_num) (by norm_num),
      round2_eq 120 12000 (by norm_num) (by norm_num),
      round2_eq (2000000 / 66663) 3000 (by norm_num) (by norm_num)]
  · rw [hdti]
    norm_num [dtiScorePoints]
  · norm_num [dtiScorePoints]

end LoanCalc
